import Mathlib

/-!
Verification development for a desktop chat client (openai_chat_app.py).

The embedding models the pure, observable logic of the program:
the session object (OpenAIChatSession), the conversation object
(Conversation), the token-counting wrapper, and the message-list
display helper.  External effects (the HTTP API, the tokenizer
library) are modelled as explicit oracle parameters: the outcome of
each responses.create call is an ApiOutcome argument, and the
tokenizer is a function argument returning an optional token list
(none models the library raising).  Python truthiness on optional
strings and lists is modelled explicitly.  Each session-level
operation additionally returns the list of API requests it issued,
so request-shape properties can be stated over the trace.
-/

/-- A chat-history record as stored by Conversation: a dict with a
role field and a message_text field. -/
structure ChatRecord where
  role : String
  message_text : String
deriving Repr, DecidableEq

/-- A history item as it may be handed to the session layer: a dict
whose role or message_text keys may be absent, or a non-dict value. -/
inductive HistItem where
  | dict (role : Option String) (message_text : Option String) : HistItem
  | nonDict : HistItem
deriving Repr, DecidableEq

/-- m.get with default user, guarded by isinstance dict. -/
def histRole : HistItem → String
  | .dict (some r) _ => r
  | .dict none _ => "user"
  | .nonDict => "user"

/-- m.get with default empty string, guarded by isinstance dict. -/
def histText : HistItem → String
  | .dict _ (some t) => t
  | .dict _ none => ""
  | .nonDict => ""

def ChatRecord.toHistItem (r : ChatRecord) : HistItem :=
  .dict (some r.role) (some r.message_text)

/-- Python truthiness of an optional string: None and the empty
string are falsy. -/
def truthyOptStr : Option String → Bool
  | none => false
  | some s => !(s == "")

/-- Python truthiness of an optional list: None and the empty list
are falsy. -/
def truthyOptList {α : Type} : Option (List α) → Bool
  | none => false
  | some l => !l.isEmpty

/-- One message of an API request input payload. -/
structure ApiMsg where
  role : String
  content : String
deriving Repr, DecidableEq

/-- Map the internal model role to the API assistant role. -/
def roleApi (role : String) : String :=
  if role == "model" then "assistant" else role

/-- The input payload built from a history list followed by the new
user prompt. -/
def historyPayload (h : List HistItem) (prompt : String) : List ApiMsg :=
  h.map (fun m => ⟨roleApi (histRole m), histText m⟩) ++ [⟨"user", prompt⟩]

/-- One content part of a response output item. -/
structure ContentPart where
  type : String
  text : String
deriving Repr, DecidableEq

/-- One item of a response output list. -/
structure OutputItem where
  type : String
  content : List ContentPart
deriving Repr, DecidableEq

/-- A response from the remote API, as far as the client observes it:
the optional output_text attribute (has_output_text false models the
attribute access raising), the output item list used by the fallback
aggregation, and the response id. -/
structure ApiResponse where
  has_output_text : Bool
  output_text : Option String
  output : List OutputItem
  id : Option String
deriving Repr, DecidableEq

/-- The outcome of one responses.create call: a response, or an
exception carrying its message text. -/
inductive ApiOutcome where
  | ok (r : ApiResponse) : ApiOutcome
  | err (msg : String) : ApiOutcome
deriving Repr, DecidableEq

/-- The keyword arguments of one responses.create call.  A none
value for previous_response_id or reasoning means the key is absent. -/
structure Request where
  model : String
  input : List ApiMsg
  store : Bool
  previous_response_id : Option String
  reasoning : Option String
deriving Repr, DecidableEq

/-- The mutable state of OpenAIChatSession. -/
structure OpenAIChatSession where
  api_key : String
  model : String
  reasoning_effort : Option String
  previous_response_id : Option String
  token_count : Nat
deriving Repr, DecidableEq

def OpenAIChatSession.init (api_key model : String) : OpenAIChatSession :=
  { api_key := api_key, model := model, reasoning_effort := none,
    previous_response_id := none, token_count := 0 }

/-- str.startswith, modelled on the character lists. -/
def strStartsWith (s pre : String) : Bool :=
  pre.data.isPrefixOf s.data

/-- bool(model_name) and model_name.startswith of gpt-5. -/
def isReasoningCompatibleModel (model_name : String) : Bool :=
  !(model_name == "") && strStartsWith model_name "gpt-5"

/-- reasoning_effort in the set low, medium, high. -/
def effortValid : Option String → Bool
  | none => false
  | some e => e == "low" || e == "medium" || e == "high"

/-- The reasoning kwarg: present with the session effort exactly when
the model is reasoning-compatible and the effort value is valid. -/
def reasoning_request_param (st : OpenAIChatSession) : Option String :=
  if isReasoningCompatibleModel st.model && effortValid st.reasoning_effort then
    st.reasoning_effort
  else none

/-- Substring containment test, modelling the Python in operator on
strings. -/
def strContainsSub (s pat : String) : Bool :=
  (List.range (s.length + 1)).any (fun i => (s.drop i).take pat.length == pat)

/-- The error-text test of the except branch. -/
def error_matches_previous_response (msg : String) : Bool :=
  strContainsSub msg "previous_response_not_found" ||
    strContainsSub msg "Previous response"

/-- Robust reply-text extraction: output_text when the attribute is
present, otherwise the aggregation over message output items. -/
def extract_reply (r : ApiResponse) : Option String :=
  if r.has_output_text then r.output_text
  else
    let texts := ((r.output.filter (fun item => item.type == "message")).map
      (fun item => (item.content.filter
          (fun c => c.type == "output_text" && !(c.text == ""))).map
        (fun c => c.text))).flatten
    if texts.isEmpty then none else some (String.trim (String.intercalate "\n" texts))

/-- The kwargs of the first responses.create call: prompt-only input
unless previous_response_id is falsy and history is truthy, in which
case the full mapped history; previous_response_id included only when
truthy. -/
def build_first_request (st : OpenAIChatSession) (prompt : String)
    (history : Option (List HistItem)) : Request :=
  { model := st.model
    input :=
      if !truthyOptStr st.previous_response_id && truthyOptList history then
        historyPayload (history.getD []) prompt
      else [⟨"user", prompt⟩]
    store := true
    previous_response_id :=
      if truthyOptStr st.previous_response_id then st.previous_response_id else none
    reasoning := reasoning_request_param st }

/-- The kwargs of the retry responses.create call: full mapped
history when history is truthy, never a previous_response_id. -/
def build_retry_request (st : OpenAIChatSession) (prompt : String)
    (history : Option (List HistItem)) : Request :=
  { model := st.model
    input :=
      if truthyOptList history then historyPayload (history.getD []) prompt
      else [⟨"user", prompt⟩]
    store := true
    previous_response_id := none
    reasoning := reasoning_request_param st }

/-- OpenAIChatSession.send_message_to_OpenAI_API.  The outcomes of
the first create call and of the retry create call are oracle
parameters.  Returns the new session state, the reply (None on
failure) and the list of requests issued. -/
def OpenAIChatSession.send_message_to_OpenAI_API (st : OpenAIChatSession)
    (prompt : String) (history : Option (List HistItem))
    (first_outcome retry_outcome : ApiOutcome) :
    OpenAIChatSession × Option String × List Request :=
  let req1 := build_first_request st prompt history
  match first_outcome with
  | .ok r =>
      ({ st with previous_response_id := r.id }, extract_reply r, [req1])
  | .err msg =>
      if error_matches_previous_response msg then
        let req2 := build_retry_request st prompt history
        match retry_outcome with
        | .ok r =>
            ({ st with previous_response_id := r.id }, extract_reply r, [req1, req2])
        | .err _ =>
            ({ st with previous_response_id := none }, none, [req1, req2])
      else (st, none, [req1])

/-- OpenAIChatSession.update_token_count.  The tokenizer is the
oracle encFor: from a model name, an encoder turning text into a
token list, or none when the library raises (in which case the
previous token_count is kept). -/
def OpenAIChatSession.update_token_count
    (encFor : String → Option (String → List Nat))
    (st : OpenAIChatSession) (history : Option (List HistItem)) :
    OpenAIChatSession :=
  match encFor st.model with
  | some enc =>
      { st with token_count :=
          (history.getD []).foldl (fun total m => total + (enc (histText m)).length) 0 }
  | none => st

/-- The state of a Conversation object. -/
structure Conversation where
  name : String
  chat_history : List ChatRecord
  OpenAI_chat_session : OpenAIChatSession
deriving Repr, DecidableEq

def Conversation.init (api_key name model : String) : Conversation :=
  { name := name, chat_history := [],
    OpenAI_chat_session := OpenAIChatSession.init api_key model }

def Conversation.get_api_key (c : Conversation) : String :=
  c.OpenAI_chat_session.api_key

def Conversation.get_model_name (c : Conversation) : String :=
  c.OpenAI_chat_session.model

def Conversation.get_history (c : Conversation) : List ChatRecord :=
  c.chat_history

/-- Conversation.send_message: call the session, and on a truthy
reply append the user record and the model record and refresh the
token count; otherwise leave the history unchanged and return None. -/
def Conversation.send_message (encFor : String → Option (String → List Nat))
    (c : Conversation) (prompt : String)
    (first_outcome retry_outcome : ApiOutcome) :
    Conversation × Option String :=
  let res := c.OpenAI_chat_session.send_message_to_OpenAI_API prompt
      (some (c.chat_history.map ChatRecord.toHistItem)) first_outcome retry_outcome
  match res.2.1 with
  | some r =>
      if r == "" then ({ c with OpenAI_chat_session := res.1 }, none)
      else
        let newHist := c.chat_history ++ [⟨"user", prompt⟩, ⟨"model", r⟩]
        let st2 := res.1.update_token_count encFor (some (newHist.map ChatRecord.toHistItem))
        ({ c with chat_history := newHist, OpenAI_chat_session := st2 }, some r)
  | none => ({ c with OpenAI_chat_session := res.1 }, none)

/-- The GUI reasoning-effort change handler applied to a
conversation: only stores a valid effort on a compatible model. -/
def apply_reasoning_effort (c : Conversation) (e : String) : Conversation :=
  if isReasoningCompatibleModel c.OpenAI_chat_session.model &&
      (e == "low" || e == "medium" || e == "high") then
    { c with OpenAI_chat_session :=
        { c.OpenAI_chat_session with reasoning_effort := some e } }
  else c

/-- The conversation states reachable from construction by the
operations of the program: send_message, a bare session API call, a
bare token-count refresh, and the reasoning-effort handler. -/
inductive ReachableConv (api_key name model : String) : Conversation → Prop
  | init : ReachableConv api_key name model (Conversation.init api_key name model)
  | send (c : Conversation) (encFor : String → Option (String → List Nat))
      (prompt : String) (o1 o2 : ApiOutcome) :
      ReachableConv api_key name model c →
      ReachableConv api_key name model (Conversation.send_message encFor c prompt o1 o2).1
  | api (c : Conversation) (prompt : String) (history : Option (List HistItem))
      (o1 o2 : ApiOutcome) :
      ReachableConv api_key name model c →
      ReachableConv api_key name model
        { c with OpenAI_chat_session :=
            (c.OpenAI_chat_session.send_message_to_OpenAI_API prompt history o1 o2).1 }
  | tok (c : Conversation) (encFor : String → Option (String → List Nat))
      (history : Option (List HistItem)) :
      ReachableConv api_key name model c →
      ReachableConv api_key name model
        { c with OpenAI_chat_session :=
            c.OpenAI_chat_session.update_token_count encFor history }
  | effort (c : Conversation) (e : String) :
      ReachableConv api_key name model c →
      ReachableConv api_key name model (apply_reasoning_effort c e)

/-- The result object of the token-count wrapper. -/
structure TokenCountResult where
  total_tokens : Int
deriving Repr, DecidableEq

/-- A Python value handed to count_tokens as contents: a string,
None, or any other value with its truthiness and str() rendering. -/
inductive PyVal where
  | pystr (s : String) : PyVal
  | pynone : PyVal
  | pyother (truthy : Bool) (asStr : String) : PyVal
deriving Repr, DecidableEq

/-- contents if isinstance str else str of contents-or-empty. -/
def pyTextOf : PyVal → String
  | .pystr s => s
  | .pynone => ""
  | .pyother t r => if t then r else ""

/-- ModelsWrapper.count_tokens: encode the text form of contents and
return the token count, or 0 on any encoding failure. -/
def count_tokens (encTok : String → String → Option (List Nat))
    (model : String) (contents : PyVal) : TokenCountResult :=
  match encTok model (pyTextOf contents) with
  | some tokens => ⟨(tokens.length : Int)⟩
  | none => ⟨0⟩

/-- Python str.capitalize: first character upper-cased, the rest
lower-cased. -/
def pyCapitalize (s : String) : String :=
  match s.data with
  | [] => ""
  | c :: cs => String.mk (c.toUpper :: cs.map Char.toLower)

/-- The GUI message-list state: the inserted treeview rows as pairs
of node id and displayed text, and the node-to-content dict as an
association list with newest entries first. -/
structure TreeState where
  items : List (Nat × String)
  message_node_to_content : List (Nat × ChatRecord)
deriving Repr, DecidableEq

/-- AIChatApp insert-message helper: append a row whose text is the
capitalized role, a colon and space, and the message truncated to 20
characters plus an ellipsis when longer; return the fresh node id. -/
def insert_message_to_treeview (st : TreeState) (role message_content : String) :
    TreeState × Nat :=
  let display_text :=
    if message_content.length > 20 then message_content.take 20 ++ "..."
    else message_content
  let node_id := st.items.length
  ({ st with items :=
      st.items ++ [(node_id, pyCapitalize role ++ ": " ++ display_text)] }, node_id)

/-- The caller-side dict store of the full message under the node id. -/
def store_message_content (st : TreeState) (node_id : Nat) (role text : String) :
    TreeState :=
  { st with message_node_to_content :=
      (node_id, ⟨role, text⟩) :: st.message_node_to_content }

/-- Insert a message and store its full content, as both call sites
of the insert helper do. -/
def insert_and_store (st : TreeState) (role message_content : String) :
    TreeState × Nat :=
  let res := insert_message_to_treeview st role message_content
  (store_message_content res.1 res.2 role message_content, res.2)

/-! Sample concrete values used by witnesses and counterexamples. -/

def respOk : ApiResponse :=
  { has_output_text := true, output_text := some "ok", output := [], id := some "resp-1" }

def sampleHist : List HistItem :=
  [HistItem.dict (some "user") (some "a"), HistItem.dict (some "model") (some "b")]

def sampleEncFor : String → Option (String → List Nat) :=
  fun _ => some (fun s => List.range s.length)

def stEmptyPrevId : OpenAIChatSession :=
  { api_key := "k", model := "m", reasoning_effort := none,
    previous_response_id := some "", token_count := 0 }

def stWithPrev : OpenAIChatSession :=
  { api_key := "k", model := "m", reasoning_effort := none,
    previous_response_id := some "p", token_count := 0 }

def stGpt5 : OpenAIChatSession :=
  { api_key := "k", model := "gpt-5", reasoning_effort := some "low",
    previous_response_id := none, token_count := 0 }

/-! Helper lemmas. -/

lemma foldl_add_tok (f : HistItem → Nat) (l : List HistItem) (n : Nat) :
    l.foldl (fun total m => total + f m) n = n + (l.map f).sum := by
  induction l generalizing n with
  | nil => simp
  | cons m rest ih => simp [ih, Nat.add_assoc]

/-! Claim theorems. -/

/-- C9: ModelsWrapper.count_tokens is total on every contents value (it is a
total Lean function over PyVal, which covers strings, None and any other
value), its total_tokens is non-negative, on a string it is the length of the
encoding of that string, and on encoding failure it is 0. -/
theorem count_tokens_total_nonneg (encTok : String → String → Option (List Nat))
    (model : String) (contents : PyVal) :
    0 ≤ (count_tokens encTok model contents).total_tokens ∧
    (∀ s toks, contents = PyVal.pystr s → encTok model s = some toks →
      (count_tokens encTok model contents).total_tokens = toks.length) ∧
    (encTok model (pyTextOf contents) = none →
      (count_tokens encTok model contents).total_tokens = 0) := by
  refine ⟨?_, ?_, ?_⟩
  · unfold count_tokens
    cases h : encTok model (pyTextOf contents) <;> simp
  · intro s toks hc he
    subst hc
    simp [count_tokens, pyTextOf, he]
  · intro h
    simp [count_tokens, h]

/-- Witness for C9 at a concrete tokenizer and string input. -/
theorem count_tokens_total_nonneg_witness :
    ((PyVal.pystr "ab" : PyVal) = PyVal.pystr "ab") ∧
    ((fun _ t => some (List.range (String.length t))) "m" "ab" = some [0, 1]) ∧
    (count_tokens (fun _ t => some (List.range (String.length t))) "m"
      (PyVal.pystr "ab")).total_tokens = 2 := by
  refine ⟨rfl, by decide, ?_⟩
  have h := (count_tokens_total_nonneg
    (fun _ t => some (List.range (String.length t))) "m" (PyVal.pystr "ab")).2.1
    "ab" [0, 1] rfl (by decide)
  simpa using h

/-- C10: every message inserted into the treeview is displayed as the
capitalized role, a colon and space, then the full message when its length is
at most 20 characters and its first 20 characters plus an ellipsis otherwise;
the full text is retrievable from the node-content mapping under the
returned node id. -/
theorem insert_message_display_and_content (st : TreeState)
    (role message_content : String) :
    ((insert_and_store st role message_content).1.items.getLast?).map Prod.snd =
      some (pyCapitalize role ++ ": " ++
        (if message_content.length ≤ 20 then message_content
         else message_content.take 20 ++ "...")) ∧
    List.lookup (insert_and_store st role message_content).2
        (insert_and_store st role message_content).1.message_node_to_content =
      some ⟨role, message_content⟩ := by
  constructor
  · simp only [insert_and_store, insert_message_to_treeview, store_message_content]
    rw [List.getLast?_concat]
    rcases le_or_lt (message_content.length) 20 with h | h
    · rw [if_neg (by omega), if_pos h]
      rfl
    · rw [if_pos h, if_neg (by omega)]
      rfl
  · simp [insert_and_store, insert_message_to_treeview, store_message_content]

/-- C3: after update_token_count with a working tokenizer for the session
model, token_count is the sum over the history of the encoding length of each
record's message_text (a non-dict record contributing the encoding of the
empty string, via histText). -/
theorem update_token_count_sum (encFor : String → Option (String → List Nat))
    (st : OpenAIChatSession) (history : Option (List HistItem))
    (enc : String → List Nat) (henc : encFor st.model = some enc) :
    (st.update_token_count encFor history).token_count =
      ((history.getD []).map (fun m => (enc (histText m)).length)).sum := by
  unfold OpenAIChatSession.update_token_count
  rw [henc]
  simpa using foldl_add_tok (fun m => (enc (histText m)).length) (history.getD []) 0

/-- Witness for C3 at a concrete tokenizer, with a dict record and a
non-dict record in the history. -/
theorem update_token_count_sum_witness :
    sampleEncFor "m" = some (fun s => List.range s.length) ∧
    ((OpenAIChatSession.init "k" "m").update_token_count sampleEncFor
      (some [HistItem.dict (some "user") (some "ab"), HistItem.nonDict])).token_count = 2 := by
  refine ⟨rfl, ?_⟩
  have h := update_token_count_sum sampleEncFor (OpenAIChatSession.init "k" "m")
    (some [HistItem.dict (some "user") (some "ab"), HistItem.nonDict])
    (fun s => List.range s.length) rfl
  simpa using h

lemma compat_iff_starts (m : String) :
    isReasoningCompatibleModel m = true ↔ strStartsWith m "gpt-5" = true := by
  unfold isReasoningCompatibleModel
  constructor
  · intro h
    exact ((Bool.and_eq_true _ _).mp h).2
  · intro h
    refine (Bool.and_eq_true _ _).mpr ⟨?_, h⟩
    by_cases hm : m = ""
    · subst hm
      exact absurd h (by decide)
    · simp [hm]

lemma effortValid_iff (e : Option String) :
    effortValid e = true ↔
      (e = some "low" ∨ e = some "medium" ∨ e = some "high") := by
  cases e with
  | none => simp [effortValid]
  | some s => simp [effortValid, or_assoc]

lemma reasoning_request_param_ne_none (st : OpenAIChatSession) :
    reasoning_request_param st ≠ none ↔
      (isReasoningCompatibleModel st.model && effortValid st.reasoning_effort) = true := by
  unfold reasoning_request_param
  by_cases hc : (isReasoningCompatibleModel st.model && effortValid st.reasoning_effort) = true
  · have hv : effortValid st.reasoning_effort = true := ((Bool.and_eq_true _ _).mp hc).2
    cases he : st.reasoning_effort with
    | none => rw [he] at hv; simp [effortValid] at hv
    | some s => simp [hc, he]
  · simp [hc]

lemma mem_trace_reasoning (st : OpenAIChatSession) (prompt : String)
    (history : Option (List HistItem)) (o1 o2 : ApiOutcome) (q : Request)
    (hq : q ∈ (st.send_message_to_OpenAI_API prompt history o1 o2).2.2) :
    q.reasoning = reasoning_request_param st := by
  cases o1 with
  | ok r =>
    simp [OpenAIChatSession.send_message_to_OpenAI_API] at hq
    subst hq
    rfl
  | err msg =>
    by_cases hm : error_matches_previous_response msg
    · cases o2 with
      | ok r2 =>
        simp [OpenAIChatSession.send_message_to_OpenAI_API, hm] at hq
        rcases hq with h | h <;> subst h <;> rfl
      | err m2 =>
        simp [OpenAIChatSession.send_message_to_OpenAI_API, hm] at hq
        rcases hq with h | h <;> subst h <;> rfl
    · simp [OpenAIChatSession.send_message_to_OpenAI_API, hm] at hq
      subst hq
      rfl

/-- C5: every request issued by send_message_to_OpenAI_API carries the
reasoning parameter exactly when the session model starts with gpt-5 and the
session reasoning_effort is one of low, medium, high; otherwise no reasoning
parameter is present. -/
theorem reasoning_param_optional_and_gated (st : OpenAIChatSession) (prompt : String)
    (history : Option (List HistItem)) (o1 o2 : ApiOutcome) (q : Request)
    (hq : q ∈ (st.send_message_to_OpenAI_API prompt history o1 o2).2.2) :
    q.reasoning = reasoning_request_param st ∧
    (q.reasoning ≠ none ↔
      (strStartsWith st.model "gpt-5" = true ∧
        (st.reasoning_effort = some "low" ∨ st.reasoning_effort = some "medium" ∨
          st.reasoning_effort = some "high"))) := by
  have h1 := mem_trace_reasoning st prompt history o1 o2 q hq
  refine ⟨h1, ?_⟩
  rw [h1, reasoning_request_param_ne_none, Bool.and_eq_true, compat_iff_starts,
    effortValid_iff]

set_option maxRecDepth 8192 in
/-- Witness for C5: a gpt-5 session with effort low issues a request whose
reasoning parameter is present. -/
theorem reasoning_param_optional_and_gated_witness :
    build_first_request stGpt5 "hi" none ∈
      (stGpt5.send_message_to_OpenAI_API "hi" none (ApiOutcome.ok respOk)
        (ApiOutcome.ok respOk)).2.2 ∧
    (build_first_request stGpt5 "hi" none).reasoning = some "low" := by
  have hmem : build_first_request stGpt5 "hi" none ∈
      (stGpt5.send_message_to_OpenAI_API "hi" none (ApiOutcome.ok respOk)
        (ApiOutcome.ok respOk)).2.2 := by
    simp [OpenAIChatSession.send_message_to_OpenAI_API]
  have h := reasoning_param_optional_and_gated stGpt5 "hi" none
    (ApiOutcome.ok respOk) (ApiOutcome.ok respOk) _ hmem
  refine ⟨hmem, ?_⟩
  rw [h.1]
  decide

/-- C8: on a first-call error whose text matches the lost-thread pattern,
exactly one retry request is issued, carrying no previous_response_id and an
input payload of the full mapped history followed by the prompt; if the retry
also errs, the method returns None with previous_response_id reset. -/
theorem lost_thread_retry (st : OpenAIChatSession) (prompt : String)
    (history : Option (List HistItem)) (msg : String) (o2 : ApiOutcome)
    (hmsg : error_matches_previous_response msg = true) :
    (st.send_message_to_OpenAI_API prompt history (ApiOutcome.err msg) o2).2.2 =
      [build_first_request st prompt history, build_retry_request st prompt history] ∧
    (build_retry_request st prompt history).previous_response_id = none ∧
    (build_retry_request st prompt history).input =
      (history.getD []).map (fun m => ⟨roleApi (histRole m), histText m⟩) ++
        [⟨"user", prompt⟩] ∧
    (∀ msg2, o2 = ApiOutcome.err msg2 →
      (st.send_message_to_OpenAI_API prompt history (ApiOutcome.err msg) o2).2.1 = none ∧
      (st.send_message_to_OpenAI_API prompt history
        (ApiOutcome.err msg) o2).1.previous_response_id = none) := by
  refine ⟨?_, rfl, ?_, ?_⟩
  · cases o2 <;> simp [OpenAIChatSession.send_message_to_OpenAI_API, hmsg]
  · unfold build_retry_request historyPayload
    cases history with
    | none => simp [truthyOptList]
    | some l =>
      cases l with
      | nil => simp [truthyOptList]
      | cons a t => simp [truthyOptList]
  · intro msg2 h2
    subst h2
    simp [OpenAIChatSession.send_message_to_OpenAI_API, hmsg]

set_option maxRecDepth 8192 in
/-- Witness for C8 at a concrete matching error text and failing retry. -/
theorem lost_thread_retry_witness :
    error_matches_previous_response "Previous response xyz" = true ∧
    ((OpenAIChatSession.init "k" "m").send_message_to_OpenAI_API "hi" (some sampleHist)
      (ApiOutcome.err "Previous response xyz") (ApiOutcome.err "boom")).2.1 = none := by
  have hm : error_matches_previous_response "Previous response xyz" = true := by decide
  exact ⟨hm, ((lost_thread_retry (OpenAIChatSession.init "k" "m") "hi" (some sampleHist)
    "Previous response xyz" (ApiOutcome.err "boom") hm).2.2.2 "boom" rfl).1⟩

/-- Counterexample for C2: with no previous_response_id yet and a non-empty
history, the single request issued carries the full prior history (mapped to
assistant roles), not only the new user prompt. -/
theorem context_delegation_counterexample :
    ((OpenAIChatSession.send_message_to_OpenAI_API (OpenAIChatSession.init "k" "gpt-4")
        "hi" (some sampleHist) (ApiOutcome.ok respOk) (ApiOutcome.ok respOk)).2.2.map
      (fun q => q.input)) =
      [[⟨"user", "a"⟩, ⟨"assistant", "b"⟩, ⟨"user", "hi"⟩]] ∧
    ([[⟨"user", "a"⟩, ⟨"assistant", "b"⟩, ⟨"user", "hi"⟩]] : List (List ApiMsg)) ≠
      [[⟨"user", "hi"⟩]] := by
  exact ⟨rfl, by decide⟩

/-- C2 amended: context threading is delegated to response chaining only once
a previous_response_id is held: then the input payload is exactly the new user
prompt and the id is passed; while no id is held and a non-empty history is
supplied, the client re-sends the full prior history itself. -/
theorem context_threading_amended (st : OpenAIChatSession) (prompt : String)
    (history : Option (List HistItem)) (o1 o2 : ApiOutcome) :
    ((st.send_message_to_OpenAI_API prompt history o1 o2).2.2).head? =
      some (build_first_request st prompt history) ∧
    (truthyOptStr st.previous_response_id = true →
      (build_first_request st prompt history).input = [⟨"user", prompt⟩] ∧
      (build_first_request st prompt history).previous_response_id =
        st.previous_response_id) ∧
    (truthyOptStr st.previous_response_id = false → truthyOptList history = true →
      (build_first_request st prompt history).input =
        historyPayload (history.getD []) prompt) := by
  refine ⟨?_, ?_, ?_⟩
  · cases o1 with
    | ok r => rfl
    | err msg =>
      by_cases hm : error_matches_previous_response msg <;> cases o2 <;>
        simp [OpenAIChatSession.send_message_to_OpenAI_API, hm]
  · intro h
    unfold build_first_request
    simp [h]
  · intro h1 h2
    unfold build_first_request
    simp [h1, h2]

/-- Witness for the amended C2: with a previous_response_id held, the issued
request input is exactly the new user prompt. -/
theorem context_threading_amended_witness :
    truthyOptStr stWithPrev.previous_response_id = true ∧
    (build_first_request stWithPrev "hi" (some sampleHist)).input =
      [⟨"user", "hi"⟩] := by
  refine ⟨by decide, ?_⟩
  exact ((context_threading_amended stWithPrev "hi" (some sampleHist)
    (ApiOutcome.ok respOk) (ApiOutcome.ok respOk)).2.1 (by decide)).1

/-- Counterexample for C4: a session whose previous_response_id is the empty
string (non-None) issues its request without any previous_response_id
parameter, because the code tests Python truthiness rather than None-ness. -/
theorem session_continuity_counterexample :
    stEmptyPrevId.previous_response_id ≠ none ∧
    ((stEmptyPrevId.send_message_to_OpenAI_API "hi" none (ApiOutcome.ok respOk)
      (ApiOutcome.ok respOk)).2.2.map (fun q => q.previous_response_id)) = [none] := by
  exact ⟨by decide, rfl⟩

/-- C4 amended: after every successful create call (first or retry),
previous_response_id equals the id of the response just received; and every
request made while previous_response_id is truthy (non-None and non-empty)
includes it as the previous_response_id parameter. -/
theorem session_continuity_amended (st : OpenAIChatSession) (prompt : String)
    (history : Option (List HistItem)) (o1 o2 : ApiOutcome) :
    (∀ r, o1 = ApiOutcome.ok r →
      (st.send_message_to_OpenAI_API prompt history o1 o2).1.previous_response_id =
        r.id) ∧
    (∀ msg r, o1 = ApiOutcome.err msg → error_matches_previous_response msg = true →
      o2 = ApiOutcome.ok r →
      (st.send_message_to_OpenAI_API prompt history o1 o2).1.previous_response_id =
        r.id) ∧
    (truthyOptStr st.previous_response_id = true →
      (build_first_request st prompt history).previous_response_id =
        st.previous_response_id) := by
  refine ⟨?_, ?_, ?_⟩
  · intro r h
    subst h
    rfl
  · intro msg r h1 hm h2
    subst h1
    subst h2
    simp [OpenAIChatSession.send_message_to_OpenAI_API, hm]
  · intro h
    unfold build_first_request
    simp [h]

/-- Witness for the amended C4: a successful call stores the response id, and
a truthy previous_response_id is passed in the request. -/
theorem session_continuity_amended_witness :
    ((OpenAIChatSession.init "k" "m").send_message_to_OpenAI_API "hi" none
      (ApiOutcome.ok respOk) (ApiOutcome.ok respOk)).1.previous_response_id =
        some "resp-1" ∧
    truthyOptStr stWithPrev.previous_response_id = true ∧
    (build_first_request stWithPrev "hi" none).previous_response_id = some "p" := by
  refine ⟨?_, by decide, ?_⟩
  · have h := (session_continuity_amended (OpenAIChatSession.init "k" "m") "hi" none
      (ApiOutcome.ok respOk) (ApiOutcome.ok respOk)).1 respOk rfl
    simpa using h
  · have h := (session_continuity_amended stWithPrev "hi" none
      (ApiOutcome.ok respOk) (ApiOutcome.ok respOk)).2.2 (by decide)
    simpa using h

/-- C1: Conversation.send_message only appends: the prior chat_history is a
prefix of the resulting one; a non-empty session reply appends exactly the
user record then the model record and is returned; a None session reply
leaves chat_history unchanged and send_message returns None. -/
theorem send_message_append_only (encFor : String → Option (String → List Nat))
    (c : Conversation) (prompt : String) (o1 o2 : ApiOutcome) :
    (∃ t, (Conversation.send_message encFor c prompt o1 o2).1.chat_history =
        c.chat_history ++ t) ∧
    (∀ r, (c.OpenAI_chat_session.send_message_to_OpenAI_API prompt
        (some (c.chat_history.map ChatRecord.toHistItem)) o1 o2).2.1 = some r →
      ¬r = "" →
      (Conversation.send_message encFor c prompt o1 o2).1.chat_history =
        c.chat_history ++ [⟨"user", prompt⟩, ⟨"model", r⟩] ∧
      (Conversation.send_message encFor c prompt o1 o2).2 = some r) ∧
    ((c.OpenAI_chat_session.send_message_to_OpenAI_API prompt
        (some (c.chat_history.map ChatRecord.toHistItem)) o1 o2).2.1 = none →
      (Conversation.send_message encFor c prompt o1 o2).1.chat_history =
        c.chat_history ∧
      (Conversation.send_message encFor c prompt o1 o2).2 = none) := by
  rcases hres : (c.OpenAI_chat_session.send_message_to_OpenAI_API prompt
      (some (c.chat_history.map ChatRecord.toHistItem)) o1 o2).2.1 with _ | r
  · refine ⟨⟨[], by simp [Conversation.send_message, hres]⟩, ?_, ?_⟩
    · intro r h
      exact absurd h (by simp)
    · intro _
      constructor <;> simp [Conversation.send_message, hres]
  · by_cases hr : r = ""
    · subst hr
      refine ⟨⟨[], by simp [Conversation.send_message, hres]⟩, ?_, ?_⟩
      · intro r' h hne
        have h' : ("" : String) = r' := by injection h
        exact absurd h'.symm hne
      · intro h
        exact absurd h (by simp)
    · refine ⟨⟨[⟨"user", prompt⟩, ⟨"model", r⟩],
        by simp [Conversation.send_message, hres, hr]⟩, ?_, ?_⟩
      · intro r' h hne
        have hrr : r = r' := by injection h
        subst hrr
        constructor <;> simp [Conversation.send_message, hres, hr]
      · intro h
        exact absurd h (by simp)

/-- Witness for C1: a successful non-empty reply appends the two records. -/
theorem send_message_append_only_witness :
    ((Conversation.init "k" "n" "m").OpenAI_chat_session.send_message_to_OpenAI_API
      "hello" (some ((Conversation.init "k" "n" "m").chat_history.map
        ChatRecord.toHistItem)) (ApiOutcome.ok respOk) (ApiOutcome.ok respOk)).2.1 =
      some "ok" ∧
    ¬("ok" : String) = "" ∧
    (Conversation.send_message sampleEncFor (Conversation.init "k" "n" "m") "hello"
      (ApiOutcome.ok respOk) (ApiOutcome.ok respOk)).1.chat_history =
      [⟨"user", "hello"⟩, ⟨"model", "ok"⟩] := by
  refine ⟨rfl, by decide, ?_⟩
  have h := ((send_message_append_only sampleEncFor (Conversation.init "k" "n" "m")
    "hello" (ApiOutcome.ok respOk) (ApiOutcome.ok respOk)).2.1 "ok" rfl (by decide)).1
  simpa using h

/-- A chat history that is well formed: even length, with roles strictly
alternating user then model. -/
def historyWellFormed (l : List ChatRecord) : Prop :=
  l.length % 2 = 0 ∧
  ∀ i, (hi : i < l.length) → l[i].role = (if i % 2 = 0 then "user" else "model")

lemma historyWellFormed_nil : historyWellFormed [] := by
  constructor
  · rfl
  · intro i hi
    simp at hi

lemma historyWellFormed_append (l : List ChatRecord) (p r : String)
    (h : historyWellFormed l) :
    historyWellFormed (l ++ [⟨"user", p⟩, ⟨"model", r⟩]) := by
  obtain ⟨heven, hrole⟩ := h
  have hlen : (l ++ [(⟨"user", p⟩ : ChatRecord), ⟨"model", r⟩]).length =
      l.length + 2 := by simp
  constructor
  · rw [hlen]
    omega
  · intro i hi
    rw [hlen] at hi
    by_cases hlt : i < l.length
    · rw [List.getElem_append_left hlt]
      exact hrole i hlt
    · have hge : l.length ≤ i := Nat.le_of_not_lt hlt
      rw [List.getElem_append_right hge]
      rcases (by omega : i = l.length ∨ i = l.length + 1) with he | he
      · subst he
        simp [Nat.sub_self, heven]
      · subst he
        have h1 : l.length + 1 - l.length = 1 := by omega
        have h2 : (l.length + 1) % 2 = 1 := by omega
        simp [h1, h2]

lemma send_message_hist_shape (encFor : String → Option (String → List Nat))
    (c : Conversation) (prompt : String) (o1 o2 : ApiOutcome) :
    (Conversation.send_message encFor c prompt o1 o2).1.chat_history =
      c.chat_history ∨
    ∃ r, (Conversation.send_message encFor c prompt o1 o2).1.chat_history =
      c.chat_history ++ [⟨"user", prompt⟩, ⟨"model", r⟩] := by
  rcases hres : (c.OpenAI_chat_session.send_message_to_OpenAI_API prompt
      (some (c.chat_history.map ChatRecord.toHistItem)) o1 o2).2.1 with _ | r
  · left
    simp [Conversation.send_message, hres]
  · by_cases hr : r = ""
    · left
      subst hr
      simp [Conversation.send_message, hres]
    · right
      exact ⟨r, by simp [Conversation.send_message, hres, hr]⟩

/-- C6: from construction on, the chat history starts empty, every record is
a role/text record (by the ChatRecord type of the embedding), its length is
always even, and roles strictly alternate user then model. -/
theorem chat_history_shape_invariant (api_key name model : String) (c : Conversation)
    (h : ReachableConv api_key name model c) :
    (Conversation.init api_key name model).chat_history = [] ∧
    c.chat_history.length % 2 = 0 ∧
    (∀ i, (hi : i < c.chat_history.length) →
      c.chat_history[i].role = (if i % 2 = 0 then "user" else "model")) := by
  refine ⟨rfl, ?_⟩
  suffices hw : historyWellFormed c.chat_history from ⟨hw.1, hw.2⟩
  induction h with
  | init => exact historyWellFormed_nil
  | send c' encFor prompt o1 o2 _ ih =>
    rcases send_message_hist_shape encFor c' prompt o1 o2 with he | ⟨r, he⟩
    · rw [he]
      exact ih
    · rw [he]
      exact historyWellFormed_append _ _ _ ih
  | api c' prompt history o1 o2 _ ih => exact ih
  | tok c' encFor history _ ih => exact ih
  | effort c' e _ ih =>
    unfold apply_reasoning_effort
    split
    · exact ih
    · exact ih

/-- Witness for C6: a reachable one-exchange conversation has even length. -/
theorem chat_history_shape_invariant_witness :
    ReachableConv "k" "n" "m"
      (Conversation.send_message sampleEncFor (Conversation.init "k" "n" "m") "hello"
        (ApiOutcome.ok respOk) (ApiOutcome.ok respOk)).1 ∧
    (Conversation.send_message sampleEncFor (Conversation.init "k" "n" "m") "hello"
      (ApiOutcome.ok respOk) (ApiOutcome.ok respOk)).1.chat_history.length % 2 = 0 := by
  have hr : ReachableConv "k" "n" "m"
      (Conversation.send_message sampleEncFor (Conversation.init "k" "n" "m") "hello"
        (ApiOutcome.ok respOk) (ApiOutcome.ok respOk)).1 :=
    ReachableConv.send _ sampleEncFor "hello" (ApiOutcome.ok respOk)
      (ApiOutcome.ok respOk) ReachableConv.init
  exact ⟨hr, (chat_history_shape_invariant "k" "n" "m" _ hr).2.1⟩

lemma sendAPI_preserves_fields (st : OpenAIChatSession) (prompt : String)
    (history : Option (List HistItem)) (o1 o2 : ApiOutcome) :
    (st.send_message_to_OpenAI_API prompt history o1 o2).1.api_key = st.api_key ∧
    (st.send_message_to_OpenAI_API prompt history o1 o2).1.model = st.model := by
  cases o1 with
  | ok r => exact ⟨rfl, rfl⟩
  | err msg =>
    by_cases hm : error_matches_previous_response msg <;> cases o2 <;>
      simp [OpenAIChatSession.send_message_to_OpenAI_API, hm]

lemma update_token_count_preserves_fields
    (encFor : String → Option (String → List Nat)) (st : OpenAIChatSession)
    (history : Option (List HistItem)) :
    (st.update_token_count encFor history).api_key = st.api_key ∧
    (st.update_token_count encFor history).model = st.model := by
  unfold OpenAIChatSession.update_token_count
  cases encFor st.model <;> simp

lemma send_message_preserves_fields (encFor : String → Option (String → List Nat))
    (c : Conversation) (prompt : String) (o1 o2 : ApiOutcome) :
    (Conversation.send_message encFor c prompt o1 o2).1.OpenAI_chat_session.api_key =
      c.OpenAI_chat_session.api_key ∧
    (Conversation.send_message encFor c prompt o1 o2).1.OpenAI_chat_session.model =
      c.OpenAI_chat_session.model := by
  have hapi := sendAPI_preserves_fields c.OpenAI_chat_session prompt
    (some (c.chat_history.map ChatRecord.toHistItem)) o1 o2
  rcases hres : (c.OpenAI_chat_session.send_message_to_OpenAI_API prompt
      (some (c.chat_history.map ChatRecord.toHistItem)) o1 o2).2.1 with _ | r
  · constructor <;> simp [Conversation.send_message, hres, hapi.1, hapi.2]
  · by_cases hr : r = ""
    · subst hr
      constructor <;> simp [Conversation.send_message, hres, hapi.1, hapi.2]
    · constructor <;>
        simp [Conversation.send_message, hres, hr, update_token_count_preserves_fields,
          sendAPI_preserves_fields]

/-- C7: the credential and model of a conversation are fixed at construction:
in every reachable conversation state, get_api_key and get_model_name return
exactly the construction-time values, so no operation changes them. -/
theorem credential_and_model_fixed (api_key name model : String) (c : Conversation)
    (h : ReachableConv api_key name model c) :
    c.get_api_key = api_key ∧ c.get_model_name = model := by
  induction h with
  | init => exact ⟨rfl, rfl⟩
  | send c' encFor prompt o1 o2 _ ih =>
    have hp := send_message_preserves_fields encFor c' prompt o1 o2
    exact ⟨hp.1.trans ih.1, hp.2.trans ih.2⟩
  | api c' prompt history o1 o2 _ ih =>
    have hp := sendAPI_preserves_fields c'.OpenAI_chat_session prompt history o1 o2
    exact ⟨hp.1.trans ih.1, hp.2.trans ih.2⟩
  | tok c' encFor history _ ih =>
    have hp := update_token_count_preserves_fields encFor c'.OpenAI_chat_session history
    exact ⟨hp.1.trans ih.1, hp.2.trans ih.2⟩
  | effort c' e _ ih =>
    unfold apply_reasoning_effort
    split
    · exact ih
    · exact ih

/-- Witness for C7: after one exchange the conversation still reports the
construction credential and model. -/
theorem credential_and_model_fixed_witness :
    ReachableConv "my-key" "n" "gpt-4"
      (Conversation.send_message sampleEncFor
        (Conversation.init "my-key" "n" "gpt-4") "hello"
        (ApiOutcome.ok respOk) (ApiOutcome.ok respOk)).1 ∧
    (Conversation.send_message sampleEncFor (Conversation.init "my-key" "n" "gpt-4")
      "hello" (ApiOutcome.ok respOk) (ApiOutcome.ok respOk)).1.get_api_key =
      "my-key" := by
  have hr : ReachableConv "my-key" "n" "gpt-4"
      (Conversation.send_message sampleEncFor
        (Conversation.init "my-key" "n" "gpt-4") "hello"
        (ApiOutcome.ok respOk) (ApiOutcome.ok respOk)).1 :=
    ReachableConv.send _ sampleEncFor "hello" (ApiOutcome.ok respOk)
      (ApiOutcome.ok respOk) ReachableConv.init
  exact ⟨hr, (credential_and_model_fixed "my-key" "n" "gpt-4" _ hr).1⟩
